import Mathlib

/-!
Shallow embedding of `src/game/rules.go` (package `game` of d-huck/katagogo):
the rule-configuration module of a Go-variant engine.  Go `int` is modelled as
`Int`, Go `bool` as `Bool`, Go `string` as `String`, and the `float32` komi
field as `ℚ` (every komi value this module constructs is an integer or
half-integer, on which all the float32 arithmetic the module performs —
doubling, truncation to `int`, comparison — is exact).  Functions returning
`(T, error)` are modelled as `Except String T` (Go error values here are plain
message strings built with `errors.New` / `fmt.Errorf`); a function returning a
possibly-nil pointer together with an error is modelled as an explicit pair of
options, so that nil-ness is visible.
-/

namespace KataGoGo

/-- Go `int(x)` on a float value truncates toward zero; on the rational model
this is `Int.div` of numerator by denominator (T-division). -/
def ratTrunc (q : ℚ) : ℤ :=
  Int.tdiv q.num (q.den : ℤ)

/-- Models `math.IsInf(float64(komi), 0)`: every rational models a finite
float value, so this is always `false`. -/
def ratIsInf (_q : ℚ) : Bool :=
  false

/-- Ko-rule enum constants from the `iota` block in rules.go. -/
def KO_SIMPLE : Int := 0

def KO_POSITIONAL : Int := 1

def KO_SITUATIONAL : Int := 2

def KO_SPIGHT : Int := 3

/-- Scoring-rule enum constants. -/
def SCORE_AREA : Int := 0

def SCORE_TERRITORY : Int := 1

/-- Tax-rule enum constants. -/
def TAX_NONE : Int := 0

def TAX_SEKI : Int := 1

def TAX_ALL : Int := 2

/-- White-handicap-bonus enum constants. -/
def WHB_ZERO : Int := 0

def WHB_N : Int := 1

def WHB_N_MINUS_ONE : Int := 2

/-- The `Rules` struct of rules.go. -/
structure Rules where
  KoRule : Int
  ScoringRule : Int
  TaxRule : Int
  WhiteHandicapBonus : Int
  MultiStoneSuicide : Bool
  HasButton : Bool
  FriendlyPassOk : Bool
  Komi : ℚ
deriving DecidableEq, Repr

/-- `(r *Rules) GetTrompTaylorish()`: ignores the receiver and returns a fresh
Tromp-Taylor-ish default ruleset. -/
def GetTrompTaylorish (_r : Rules) : Rules :=
  { KoRule := KO_POSITIONAL
    ScoringRule := SCORE_AREA
    TaxRule := TAX_NONE
    MultiStoneSuicide := false
    HasButton := false
    WhiteHandicapBonus := WHB_ZERO
    FriendlyPassOk := false
    Komi := 7.5 }

/-- `(r *Rules) GameResultWillBeInteger()`:
`komiIsInteger := float32(int(r.Komi)) == r.Komi; return komiIsInteger != r.HasButton`. -/
def GameResultWillBeInteger (r : Rules) : Bool :=
  let komiIsInteger : Bool := ((ratTrunc r.Komi : ℚ) == r.Komi)
  komiIsInteger != r.HasButton

/-- `komiIsIntOrHalfInt(komi float32) bool`:
`!math.IsInf(float64(komi), 0) && komi*2 == float32(int(komi)*2)`.
Note the Go code doubles the truncation `int(komi)` (it does not truncate the
doubled value `komi*2`). -/
def komiIsIntOrHalfInt (komi : ℚ) : Bool :=
  !(ratIsInf komi) && (komi * 2 == ((ratTrunc komi * 2 : ℤ) : ℚ))

/-- `parseKoRule(s string) (int, error)`: case-sensitive switch on canonical
tokens; the default branch returns `errors.New("invalid Ko Rule")`. -/
def parseKoRule (s : String) : Except String Int :=
  if s = "SIMPLE" then .ok KO_SIMPLE
  else if s = "POSITIONAL" then .ok KO_POSITIONAL
  else if s = "SITUATIONAL" then .ok KO_SITUATIONAL
  else if s = "SPIGHT" then .ok KO_SPIGHT
  else .error "invalid Ko Rule"

/-- `parseScoringRule(s string) (int, error)`. -/
def parseScoringRule (s : String) : Except String Int :=
  if s = "AREA" then .ok SCORE_AREA
  else if s = "TERRITORY" then .ok SCORE_TERRITORY
  else .error "invalid Scoring Rule"

/-- `parseTaxRule(s string) (int, error)`. -/
def parseTaxRule (s : String) : Except String Int :=
  if s = "NONE" then .ok TAX_NONE
  else if s = "SEKI" then .ok TAX_SEKI
  else if s = "ALL" then .ok TAX_ALL
  else .error "invalid Tax Rule"

/-- `parseWhiteHandicapBonus(s string) (int, error)`. -/
def parseWhiteHandicapBonus (s : String) : Except String Int :=
  if s = "ZERO" then .ok WHB_ZERO
  else if s = "N" then .ok WHB_N
  else if s = "N-1" then .ok WHB_N_MINUS_ONE
  else .error "invalid White Handicap Bonus"

/-- `writeKoRule(koRule int) string`. -/
def writeKoRule (koRule : Int) : String :=
  if koRule = KO_SIMPLE then "SIMPLE"
  else if koRule = KO_POSITIONAL then "POSITIONAL"
  else if koRule = KO_SITUATIONAL then "SITUATIONAL"
  else if koRule = KO_SPIGHT then "SPIGHT"
  else "UNKNOWN"

/-- `writeScoringRule(scoringRule int) string`. -/
def writeScoringRule (scoringRule : Int) : String :=
  if scoringRule = SCORE_AREA then "AREA"
  else if scoringRule = SCORE_TERRITORY then "TERRITORY"
  else "UNKNOWN"

/-- `writeTaxRule(taxRule int) string`. -/
def writeTaxRule (taxRule : Int) : String :=
  if taxRule = TAX_NONE then "NONE"
  else if taxRule = TAX_SEKI then "SEKI"
  else if taxRule = TAX_ALL then "ALL"
  else "UNKNOWN"

/-- `writeWhiteHandicapBonus(whiteHandicapBonus int) string`. -/
def writeWhiteHandicapBonus (whiteHandicapBonus : Int) : String :=
  if whiteHandicapBonus = WHB_ZERO then "ZERO"
  else if whiteHandicapBonus = WHB_N then "N"
  else if whiteHandicapBonus = WHB_N_MINUS_ONE then "N-1"
  else "UNKNOWN"

/-- `(r *Rules) ToStringNoKomi()`: the strings.Builder writes, in source
order. -/
def ToStringNoKomi (r : Rules) : String :=
  "Ko Rule: " ++ writeKoRule r.KoRule
    ++ ", Scoring Rule: " ++ writeScoringRule r.ScoringRule
    ++ ", Tax Rule: " ++ writeTaxRule r.TaxRule
    ++ ", White Handicap Bonus: " ++ writeWhiteHandicapBonus r.WhiteHandicapBonus
    ++ (if r.MultiStoneSuicide then ", Suicide Allowed" else "")
    ++ (if r.HasButton then ", Has Button" else "")
    ++ (if r.WhiteHandicapBonus ≠ WHB_ZERO then
          ", White Handicap Bonus: " ++ writeWhiteHandicapBonus r.WhiteHandicapBonus
        else "")
    ++ (if r.FriendlyPassOk then ", Friendly Pass OK" else "")

/-- Models `strconv.FormatFloat(float64(r.Komi), 'f', -1, 32)`: the shortest
decimal form that round-trips.  Defined on the integer and half-integer komi
values this module constructs (the only values reached by the claims); other
rationals render their numerator and denominator, a branch no float32
half-integer reaches. -/
def formatKomi (q : ℚ) : String :=
  if q.den = 1 then toString q.num
  else if q.den = 2 then
    (if q.num < 0 then "-" else "") ++ toString (q.num.natAbs / 2) ++ ".5"
  else toString q.num ++ "/" ++ toString q.den

/-- `(r *Rules) ToString()`: no-komi rendering followed by `", Komi: "` and
the shortest-decimal komi. -/
def ToString (r : Rules) : String :=
  ToStringNoKomi r ++ ", Komi: " ++ formatKomi r.Komi

/-- `stringToBool(s string) (bool, error)`: strict boolean literals. -/
def stringToBool (s : String) : Except String Bool :=
  if s = "true" ∨ s = "True" then .ok true
  else if s = "false" ∨ s = "False" then .ok false
  else .error "input should be 'true' or 'false'"

/-- `(r *Rules) UpdateRules(k, v string) (*Rules, error)`: the Go switch is a
sequential comparison of `k` against the case labels (no fallthrough, so the
empty `case "score":` body does nothing and control reaches `return r, nil`).
The result pair models the Go return values: first the returned `*Rules`
(`none` models a nil pointer; on success it is the receiver after the in-place
mutation), then the returned error. -/
def UpdateRules (r : Rules) (k v : String) : Option Rules × Option String :=
  if k = "ko" then
    match parseKoRule v with
    | .error e => (none, some e)
    | .ok newVal => (some { r with KoRule := newVal }, none)
  else if k = "score" then (some r, none)
  else if k = "scoring" then
    match parseScoringRule v with
    | .error e => (none, some e)
    | .ok newVal => (some { r with ScoringRule := newVal }, none)
  else if k = "tax" then
    match parseTaxRule v with
    | .error e => (none, some e)
    | .ok newVal => (some { r with TaxRule := newVal }, none)
  else if k = "suicide" then
    match stringToBool v with
    | .error e => (none, some e)
    | .ok newVal => (some { r with MultiStoneSuicide := newVal }, none)
  else if k = "hasButton" then
    match stringToBool v with
    | .error e => (none, some e)
    | .ok newVal => (some { r with HasButton := newVal }, none)
  else if k = "whiteHandicapBonus" then
    match parseWhiteHandicapBonus v with
    | .error e => (none, some e)
    | .ok newVal => (some { r with WhiteHandicapBonus := newVal }, none)
  else if k = "friendlyPassOk" then
    match stringToBool v with
    | .error e => (none, some e)
    | .ok newVal => (some { r with FriendlyPassOk := newVal }, none)
  else (none, some (k ++ " is not a valid rule key"))

/-- Models `strings.TrimSpace`: drop whitespace from both ends. -/
def trimSpace (s : String) : String :=
  ⟨((s.data.dropWhile Char.isWhitespace).reverse.dropWhile Char.isWhitespace).reverse⟩

/-- Models `strings.ReplaceAll(s, string(c), "")`: removing every occurrence
of the single character `c`. -/
def removeAllChar (s : String) (c : Char) : String :=
  ⟨s.data.filter (fun a => a ≠ c)⟩

/-- Models `strings.ToLower` (the inputs in scope are ASCII). -/
def toLowerGo (s : String) : String :=
  ⟨s.data.map Char.toLower⟩

/-- `(r *Rules) parseRulesHelper(s string) *Rules`: normalizes the name and
matches it against the preset table; any unmatched input falls back to
`r.GetTrompTaylorish()`. -/
def parseRulesHelper (r : Rules) (s : String) : Rules :=
  let s := trimSpace s
  let s := removeAllChar s '-'
  let s := removeAllChar s '_'
  let s := removeAllChar s ' '
  let s := toLowerGo s
  if s = "japanese" ∨ s = "korean" then
    { KoRule := KO_SIMPLE, ScoringRule := SCORE_TERRITORY, TaxRule := TAX_SEKI
      MultiStoneSuicide := false, HasButton := false, WhiteHandicapBonus := WHB_ZERO
      FriendlyPassOk := false, Komi := 6.5 }
  else if s = "chinese" then
    { KoRule := KO_SIMPLE, ScoringRule := SCORE_AREA, TaxRule := TAX_NONE
      MultiStoneSuicide := false, HasButton := false, WhiteHandicapBonus := WHB_N
      FriendlyPassOk := false, Komi := 7.5 }
  else if s = "chineseogs" ∨ s = "chinesekgs" then
    { KoRule := KO_POSITIONAL, ScoringRule := SCORE_AREA, TaxRule := TAX_NONE
      MultiStoneSuicide := false, HasButton := false, WhiteHandicapBonus := WHB_N
      FriendlyPassOk := true, Komi := 7.5 }
  else if s = "ancientarea" ∨ s = "stonescoring" then
    { KoRule := KO_SIMPLE, ScoringRule := SCORE_AREA, TaxRule := TAX_ALL
      MultiStoneSuicide := false, HasButton := false, WhiteHandicapBonus := WHB_ZERO
      FriendlyPassOk := true, Komi := 7.5 }
  else if s = "ancientterritory" then
    { KoRule := KO_SIMPLE, ScoringRule := SCORE_TERRITORY, TaxRule := TAX_ALL
      MultiStoneSuicide := false, HasButton := false, WhiteHandicapBonus := WHB_ZERO
      FriendlyPassOk := false, Komi := 6.5 }
  else if s = "agabutton" then
    { KoRule := KO_SITUATIONAL, ScoringRule := SCORE_AREA, TaxRule := TAX_NONE
      MultiStoneSuicide := false, HasButton := true, WhiteHandicapBonus := WHB_N_MINUS_ONE
      FriendlyPassOk := true, Komi := 7.0 }
  else if s = "aga" ∨ s = "bga" ∨ s = "french" then
    { KoRule := KO_SITUATIONAL, ScoringRule := SCORE_AREA, TaxRule := TAX_NONE
      MultiStoneSuicide := false, HasButton := false, WhiteHandicapBonus := WHB_N_MINUS_ONE
      FriendlyPassOk := true, Komi := 7.5 }
  else if s = "newzealand" ∨ s = "nz" then
    { KoRule := KO_SITUATIONAL, ScoringRule := SCORE_AREA, TaxRule := TAX_NONE
      MultiStoneSuicide := true, HasButton := false, WhiteHandicapBonus := WHB_ZERO
      FriendlyPassOk := true, Komi := 7.5 }
  else if s = "goe" ∨ s = "ing" then
    { KoRule := KO_POSITIONAL, ScoringRule := SCORE_AREA, TaxRule := TAX_NONE
      MultiStoneSuicide := true, HasButton := false, WhiteHandicapBonus := WHB_ZERO
      FriendlyPassOk := true, Komi := 7.5 }
  else GetTrompTaylorish r

/-- `(r *Rules) ParseRules(s string) *Rules`. -/
def ParseRules (r : Rules) (s : String) : Rules :=
  parseRulesHelper r s

/-- `(r *Rules) ParseRulesWithoutKomi(s string, komi float32) *Rules`: resolve
the name, then overwrite the komi of the fresh result (the receiver is not
written to). -/
def ParseRulesWithoutKomi (r : Rules) (s : String) (komi : ℚ) : Rules :=
  let rules := parseRulesHelper r s
  { rules with Komi := komi }

/-- `leadMatch needle hay`: `needle` is an initial segment of `hay`. -/
def leadMatch : List Char → List Char → Bool
  | [], _ => true
  | _ :: _, [] => false
  | a :: as, b :: bs => a == b && leadMatch as bs

/-- `hasSub needle hay`: `needle` occurs contiguously inside `hay` (used to
state what an error message does or does not carry). -/
def hasSub (needle : List Char) : List Char → Bool
  | [] => leadMatch needle []
  | b :: t => leadMatch needle (b :: t) || hasSub needle t

/-- C1: the claim states `komiIsIntOrHalfInt(value)` is true iff `value` is
finite and `2*value` is an integer, in particular true at the half-integer
6.5.  The code instead doubles the truncation (`komi*2 == float32(int(komi)*2)`
rather than truncating the double), so at komi = 6.5 — where `2*komi` is the
integer 13, making the claimed predicate true — the function returns `false`.
This theorem evaluates the embedded code at that failing input. -/
theorem claim_C1 :
    komiIsIntOrHalfInt (13 / 2 : ℚ) = false ∧ (13 / 2 : ℚ) * 2 = ((13 : ℤ) : ℚ) := by
  constructor
  · norm_num [komiIsIntOrHalfInt, ratTrunc, ratIsInf, show Int.tdiv 13 2 = 6 from rfl]
  · norm_num

/-- C2: for every Ruleset `r` and every value string `v` (valid token or not),
updating with key `"score"` succeeds without error and returns the receiver
with every field unchanged. -/
theorem claim_C2 (r : Rules) (v : String) :
    UpdateRules r "score" v = (some r, none) :=
  rfl

/-- C3: updating `"suicide"` with `"true"` succeeds and sets only
`MultiStoneSuicide`; updating `"suicide"` with `"maybe"` fails with the
invalid-boolean error and returns no ruleset (so the receiver keeps its prior
fields, `MultiStoneSuicide` included); updating an unknown key `"bogusKey"`
fails with an unknown-key error naming that key. -/
theorem claim_C3 (r : Rules) :
    UpdateRules r "suicide" "true" = (some { r with MultiStoneSuicide := true }, none) ∧
    UpdateRules r "suicide" "maybe" = (none, some "input should be 'true' or 'false'") ∧
    UpdateRules r "bogusKey" "x" = (none, some "bogusKey is not a valid rule key") :=
  ⟨rfl, rfl, rfl⟩

/-- C4: the display string of the Tromp-Taylor-ish default is exactly the
string given in the spec; and for every Ruleset whose white-handicap bonus is
not Zero the display string follows the spec's clause ordering with the White
Handicap Bonus clause appearing twice. -/
theorem claim_C4 :
    (∀ r : Rules, ToString (GetTrompTaylorish r) =
      "Ko Rule: POSITIONAL, Scoring Rule: AREA, Tax Rule: NONE, White Handicap Bonus: ZERO, Komi: 7.5") ∧
    (∀ r : Rules, r.WhiteHandicapBonus ≠ WHB_ZERO →
      ToString r =
        "Ko Rule: " ++ writeKoRule r.KoRule
          ++ ", Scoring Rule: " ++ writeScoringRule r.ScoringRule
          ++ ", Tax Rule: " ++ writeTaxRule r.TaxRule
          ++ ", White Handicap Bonus: " ++ writeWhiteHandicapBonus r.WhiteHandicapBonus
          ++ (if r.MultiStoneSuicide then ", Suicide Allowed" else "")
          ++ (if r.HasButton then ", Has Button" else "")
          ++ ", White Handicap Bonus: " ++ writeWhiteHandicapBonus r.WhiteHandicapBonus
          ++ (if r.FriendlyPassOk then ", Friendly Pass OK" else "")
          ++ ", Komi: " ++ formatKomi r.Komi) := by
  constructor
  · intro r
    have hd : (7.5 : ℚ).den = 2 := by norm_num
    have hn : (7.5 : ℚ).num = 15 := by norm_num
    simp [ToString, ToStringNoKomi, GetTrompTaylorish, writeKoRule, writeScoringRule,
      writeTaxRule, writeWhiteHandicapBonus, formatKomi, hd, hn,
      KO_POSITIONAL, KO_SIMPLE, SCORE_AREA, TAX_NONE, WHB_ZERO]
    rfl
  · intro r h
    simp [ToString, ToStringNoKomi, if_pos h, String.append_assoc]

/-- C4 witness: the second part of `claim_C4` applied to a concrete Ruleset
with white-handicap bonus `N`, with the resulting string evaluated. -/
theorem claim_C4_witness :
    ({ KoRule := 0, ScoringRule := 0, TaxRule := 0, WhiteHandicapBonus := 1,
       MultiStoneSuicide := false, HasButton := false, FriendlyPassOk := false,
       Komi := 7.5 } : Rules).WhiteHandicapBonus ≠ WHB_ZERO ∧
    ToString { KoRule := 0, ScoringRule := 0, TaxRule := 0, WhiteHandicapBonus := 1,
               MultiStoneSuicide := false, HasButton := false, FriendlyPassOk := false,
               Komi := 7.5 } =
      "Ko Rule: SIMPLE, Scoring Rule: AREA, Tax Rule: NONE, White Handicap Bonus: N, White Handicap Bonus: N, Komi: 7.5" := by
  refine ⟨by decide, (claim_C4.2 _ (by decide)).trans ?_⟩
  have hd : (7.5 : ℚ).den = 2 := by norm_num
  have hn : (7.5 : ℚ).num = 15 := by norm_num
  simp [writeKoRule, writeScoringRule, writeTaxRule, writeWhiteHandicapBonus,
    formatKomi, hd, hn, KO_SIMPLE, SCORE_AREA, TAX_NONE, WHB_ZERO, WHB_N]
  rfl

/-- C5: preset resolution is total (it returns a Ruleset for every string, by
type); the four spellings of "Chinese" all resolve to the identical Chinese
preset, and unmatched or empty input resolves to the Tromp-Taylor-ish default
(Positional, Area, None, suicide=false, button=false, Zero,
friendlyPass=false, komi=7.5) — whatever the receiver. -/
theorem claim_C5 (r : Rules) :
    ParseRules r "Chinese" =
      { KoRule := KO_SIMPLE, ScoringRule := SCORE_AREA, TaxRule := TAX_NONE
        MultiStoneSuicide := false, HasButton := false, WhiteHandicapBonus := WHB_N
        FriendlyPassOk := false, Komi := 7.5 } ∧
    ParseRules r "chinese" =
      { KoRule := KO_SIMPLE, ScoringRule := SCORE_AREA, TaxRule := TAX_NONE
        MultiStoneSuicide := false, HasButton := false, WhiteHandicapBonus := WHB_N
        FriendlyPassOk := false, Komi := 7.5 } ∧
    ParseRules r "CHI-NESE" =
      { KoRule := KO_SIMPLE, ScoringRule := SCORE_AREA, TaxRule := TAX_NONE
        MultiStoneSuicide := false, HasButton := false, WhiteHandicapBonus := WHB_N
        FriendlyPassOk := false, Komi := 7.5 } ∧
    ParseRules r "chi nese" =
      { KoRule := KO_SIMPLE, ScoringRule := SCORE_AREA, TaxRule := TAX_NONE
        MultiStoneSuicide := false, HasButton := false, WhiteHandicapBonus := WHB_N
        FriendlyPassOk := false, Komi := 7.5 } ∧
    ParseRules r "not-a-real-ruleset" =
      { KoRule := KO_POSITIONAL, ScoringRule := SCORE_AREA, TaxRule := TAX_NONE
        MultiStoneSuicide := false, HasButton := false, WhiteHandicapBonus := WHB_ZERO
        FriendlyPassOk := false, Komi := 7.5 } ∧
    ParseRules r "" =
      { KoRule := KO_POSITIONAL, ScoringRule := SCORE_AREA, TaxRule := TAX_NONE
        MultiStoneSuicide := false, HasButton := false, WhiteHandicapBonus := WHB_ZERO
        FriendlyPassOk := false, Komi := 7.5 } :=
  ⟨rfl, rfl, rfl, rfl, rfl, rfl⟩

/-- C6: for each of the four enumeration types, parsing the canonical string
of every variant yields that variant back. -/
theorem claim_C6 :
    parseKoRule (writeKoRule KO_SIMPLE) = .ok KO_SIMPLE ∧
    parseKoRule (writeKoRule KO_POSITIONAL) = .ok KO_POSITIONAL ∧
    parseKoRule (writeKoRule KO_SITUATIONAL) = .ok KO_SITUATIONAL ∧
    parseKoRule (writeKoRule KO_SPIGHT) = .ok KO_SPIGHT ∧
    parseScoringRule (writeScoringRule SCORE_AREA) = .ok SCORE_AREA ∧
    parseScoringRule (writeScoringRule SCORE_TERRITORY) = .ok SCORE_TERRITORY ∧
    parseTaxRule (writeTaxRule TAX_NONE) = .ok TAX_NONE ∧
    parseTaxRule (writeTaxRule TAX_SEKI) = .ok TAX_SEKI ∧
    parseTaxRule (writeTaxRule TAX_ALL) = .ok TAX_ALL ∧
    parseWhiteHandicapBonus (writeWhiteHandicapBonus WHB_ZERO) = .ok WHB_ZERO ∧
    parseWhiteHandicapBonus (writeWhiteHandicapBonus WHB_N) = .ok WHB_N ∧
    parseWhiteHandicapBonus (writeWhiteHandicapBonus WHB_N_MINUS_ONE) = .ok WHB_N_MINUS_ONE :=
  ⟨rfl, rfl, rfl, rfl, rfl, rfl, rfl, rfl, rfl, rfl, rfl, rfl⟩

/-- C7 counterexample: the claim says the enumeration parse error carries the
rejected text; at the non-token input "positional" (a canonical token in the
wrong case), the error is the fixed string "invalid Ko Rule", which does not
contain the rejected text. -/
theorem claim_C7_counterexample :
    parseKoRule "positional" = .error "invalid Ko Rule" ∧
    hasSub "positional".data "invalid Ko Rule".data = false := by
  exact ⟨rfl, by decide⟩

/-- C7 (amended): for every enumeration type and every input text not equal to
one of its canonical tokens (including correct tokens in the wrong case), the
parser fails with a fixed invalid-rule error naming the rule category; the
error does not carry the rejected text. -/
theorem claim_C7 (s : String) :
    (s ∉ ["SIMPLE", "POSITIONAL", "SITUATIONAL", "SPIGHT"] →
      parseKoRule s = .error "invalid Ko Rule") ∧
    (s ∉ ["AREA", "TERRITORY"] → parseScoringRule s = .error "invalid Scoring Rule") ∧
    (s ∉ ["NONE", "SEKI", "ALL"] → parseTaxRule s = .error "invalid Tax Rule") ∧
    (s ∉ ["ZERO", "N", "N-1"] →
      parseWhiteHandicapBonus s = .error "invalid White Handicap Bonus") := by
  refine ⟨?_, ?_, ?_, ?_⟩ <;> intro h <;> simp at h <;>
    simp [parseKoRule, parseScoringRule, parseTaxRule, parseWhiteHandicapBonus, h]

/-- C7 witness: `claim_C7` applied at the concrete non-token input "banana". -/
theorem claim_C7_witness :
    parseKoRule "banana" = .error "invalid Ko Rule" ∧
    parseScoringRule "banana" = .error "invalid Scoring Rule" ∧
    parseTaxRule "banana" = .error "invalid Tax Rule" ∧
    parseWhiteHandicapBonus "banana" = .error "invalid White Handicap Bonus" :=
  ⟨(claim_C7 "banana").1 (by decide), (claim_C7 "banana").2.1 (by decide),
   (claim_C7 "banana").2.2.1 (by decide), (claim_C7 "banana").2.2.2 (by decide)⟩

/-- C8: `GameResultWillBeInteger` equals (truncate(komi) == komi) XOR
hasButton, and evaluates as the claim lists on the four concrete
komi/hasButton combinations. -/
theorem claim_C8 :
    (∀ r : Rules,
      GameResultWillBeInteger r = Bool.xor ((ratTrunc r.Komi : ℚ) == r.Komi) r.HasButton) ∧
    GameResultWillBeInteger
      { KoRule := 0, ScoringRule := 0, TaxRule := 0, WhiteHandicapBonus := 0,
        MultiStoneSuicide := false, HasButton := false, FriendlyPassOk := false,
        Komi := 6 } = true ∧
    GameResultWillBeInteger
      { KoRule := 0, ScoringRule := 0, TaxRule := 0, WhiteHandicapBonus := 0,
        MultiStoneSuicide := false, HasButton := false, FriendlyPassOk := false,
        Komi := 6.5 } = false ∧
    GameResultWillBeInteger
      { KoRule := 0, ScoringRule := 0, TaxRule := 0, WhiteHandicapBonus := 0,
        MultiStoneSuicide := false, HasButton := true, FriendlyPassOk := false,
        Komi := 6.5 } = true ∧
    GameResultWillBeInteger
      { KoRule := 0, ScoringRule := 0, TaxRule := 0, WhiteHandicapBonus := 0,
        MultiStoneSuicide := false, HasButton := true, FriendlyPassOk := false,
        Komi := 6 } = false := by
  refine ⟨?_, ?_, ?_, ?_, ?_⟩
  · intro r
    show (((ratTrunc r.Komi : ℚ) == r.Komi) != r.HasButton) = _
    cases h : ((ratTrunc r.Komi : ℚ) == r.Komi) <;> cases r.HasButton <;> rfl
  · norm_num [GameResultWillBeInteger, ratTrunc]
  · norm_num [GameResultWillBeInteger, ratTrunc, show Int.tdiv 13 2 = 6 from rfl]
  · norm_num [GameResultWillBeInteger, ratTrunc, show Int.tdiv 13 2 = 6 from rfl]
  · norm_num [GameResultWillBeInteger, ratTrunc]

/-- C9: the Ruleset pointer returned by `UpdateRules` is nil exactly when an
error is returned: on every failure the first return value is `none`, and on
success it is the (mutated) receiver, never `none`. -/
theorem claim_C9 (r : Rules) (k v : String) :
    (UpdateRules r k v).1.isNone = (UpdateRules r k v).2.isSome := by
  unfold UpdateRules
  split_ifs <;>
    first
      | rfl
      | (cases parseKoRule v <;> rfl)
      | (cases parseScoringRule v <;> rfl)
      | (cases parseTaxRule v <;> rfl)
      | (cases parseWhiteHandicapBonus v <;> rfl)
      | (cases stringToBool v <;> rfl)

/-- C10: `ParseRules` and `ParseRulesWithoutKomi` depend only on their string
(and komi) arguments, not on any field of the receiver: two arbitrary
receivers produce equal results (the embedding is pure, so neither call
modifies its receiver). -/
theorem claim_C10 (r1 r2 : Rules) (s : String) (komi : ℚ) :
    ParseRules r1 s = ParseRules r2 s ∧
    ParseRulesWithoutKomi r1 s komi = ParseRulesWithoutKomi r2 s komi := by
  constructor <;>
    simp [ParseRules, ParseRulesWithoutKomi, parseRulesHelper, GetTrompTaylorish]

end KataGoGo
